import Mathlib

/-!
Shallow embedding of `scripts/extract-qoder-wiki.py` (FriendFinder repository).

The script scaffolds a `docs/` directory: it creates one markdown template per
entry of a fixed catalog `wiki_sections` (only when the file does not already
exist) and then always (re)writes an index `docs/README.md`.

The filesystem is modelled as an explicit state (`FS`): a list of directories
and an association list from file path to file content.  Every run is a pure
function from an initial `FS` (and the timestamp string produced by
`datetime.now().strftime`) to a final `FS` together with a trace of effects
(directory creations, file writes, console prints), mirroring the order in
which the Python code performs them.
-/

/-- A single observable effect of the script, in execution order. -/
inductive Effect where
  | mkdirEff (path : String)
  | writeEff (path : String) (content : String)
  | printEff (msg : String)
deriving Repr, DecidableEq

/-- Filesystem state: the set of existing directories and the existing files
as an association list from path to byte content. -/
structure FS where
  dirs : List String
  files : List (String × String)
deriving Repr, DecidableEq

/-- Look a path up in an association list of files. -/
def lookupFile : List (String × String) → String → Option String
  | [], _ => none
  | kv :: rest, p => if p = kv.1 then some kv.2 else lookupFile rest p

/-- Write (create or overwrite) a path in an association list of files. -/
def writeFilePairs : List (String × String) → String → String → List (String × String)
  | [], p, c => [(p, c)]
  | kv :: rest, p, c => if p = kv.1 then (p, c) :: rest else kv :: writeFilePairs rest p c

/-- Content of the file at `p`, when it exists. -/
def readFile (fs : FS) (p : String) : Option String := lookupFile fs.files p

/-- Whether a regular file exists at `p`. -/
def fileExists (fs : FS) (p : String) : Bool := (lookupFile fs.files p).isSome

/-- Whether a directory exists at `p`. -/
def dirExists (fs : FS) (p : String) : Bool := fs.dirs.contains p

/-- Python `Path(p).exists()`: true for a file or a directory. -/
def pathExists (fs : FS) (p : String) : Bool := fileExists fs p || dirExists fs p

/-- Effect of `open(p, 'w').write(c)`: create or overwrite the file at `p`. -/
def writeFile (fs : FS) (p c : String) : FS := ⟨fs.dirs, writeFilePairs fs.files p c⟩

/-- Effect of `Path(d).mkdir(exist_ok=True)`: create `d` unless already present. -/
def mkdirExistOk (fs : FS) (d : String) : FS :=
  if dirExists fs d then fs else ⟨d :: fs.dirs, fs.files⟩

/-- Filesystem-mutating effects (directory creations and file writes), as
opposed to console prints. -/
def isFsEffect : Effect → Bool
  | .mkdirEff _ => true
  | .writeEff _ _ => true
  | .printEff _ => false

/-- The fixed catalog `wiki_sections` of the script: an ordered mapping from
section title to relative filename (a Python dict preserves insertion order). -/
def wiki_sections : List (String × String) :=
  [("Getting Started", "01-getting-started.md"),
   ("Technology Stack", "02-technology-stack.md"),
   ("Project Structure", "03-project-structure.md"),
   ("Frontend Architecture", "04-frontend-architecture.md"),
   ("Backend Architecture", "05-backend-architecture.md"),
   ("API Endpoints Reference", "06-api-reference.md"),
   ("Real-Time Communication", "07-realtime-communication.md"),
   ("Component Architecture", "08-component-architecture.md"),
   ("State Management Integration", "09-state-management.md"),
   ("Authentication Flow", "10-authentication-flow.md"),
   ("Data Models & ORM Mapping", "11-data-models.md"),
   ("Middleware & Request Processing", "12-middleware.md"),
   ("Routing & Navigation", "13-routing-navigation.md")]

/-- The lines of the template f-string of `create_section_template`,
parameterized by the section title and the timestamp string. -/
def create_section_template_lines (section_name now : String) : List String :=
  ["# " ++ section_name,
   "",
   "## Overview",
   "",
   "*[Copy the content from Qoder Wiki Catalog → " ++ section_name ++ " section here]*",
   "",
   "## Table of Contents",
   "",
   "*[Add section table of contents here]*",
   "",
   "## Detailed Documentation",
   "",
   "*[Paste the detailed documentation from Qoder here]*",
   "",
   "---",
   "",
   "*This documentation was extracted from Qoder Wiki Catalog on " ++ now ++ "*"]

/-- The template content written by `create_section_template` (the f-string
ends with a newline before the closing quotes). -/
def create_section_template_content (section_name now : String) : String :=
  String.intercalate "\n" (create_section_template_lines section_name now) ++ "\n"

/-- `create_section_template(file_path, section_name)`: write the template to
`file_path`.  Returns the new filesystem and the effect trace. -/
def create_section_template (now file_path section_name : String) (fs : FS) :
    FS × List Effect :=
  (writeFile fs file_path (create_section_template_content section_name now),
   [.writeEff file_path (create_section_template_content section_name now)])

/-- The lines of the `readme_content` f-string of `create_main_readme`,
parameterized by the timestamp string. -/
def create_main_readme_lines (now : String) : List String :=
  ["# FriendFinder Documentation",
   "",
   "*Extracted from Qoder Wiki Catalog on " ++ now ++ "*",
   "",
   "## Documentation Sections",
   "",
   "### Getting Started",
   "- [Getting Started](./01-getting-started.md) - Project setup and initial configuration",
   "- [Technology Stack](./02-technology-stack.md) - Technologies and frameworks used",
   "",
   "### Architecture",
   "- [Project Structure](./03-project-structure.md) - File organization and structure",
   "- [Frontend Architecture](./04-frontend-architecture.md) - React component architecture",
   "- [Backend Architecture](./05-backend-architecture.md) - API and server architecture",
   "- [Component Architecture](./08-component-architecture.md) - UI component design",
   "",
   "### Development",
   "- [API Endpoints Reference](./06-api-reference.md) - Complete API documentation",
   "- [Real-Time Communication](./07-realtime-communication.md) - Socket.IO and WebRTC",
   "- [State Management Integration](./09-state-management.md) - React Context and hooks",
   "- [Authentication Flow](./10-authentication-flow.md) - User authentication system",
   "",
   "### Data & Infrastructure",
   "- [Data Models & ORM Mapping](./11-data-models.md) - Database schemas and models",
   "- [Middleware & Request Processing](./12-middleware.md) - Request handling and middleware",
   "- [Routing & Navigation](./13-routing-navigation.md) - App routing system",
   "",
   "## How to Use This Documentation",
   "",
   "1. **Start with Getting Started** for project setup",
   "2. **Review Architecture sections** to understand the system design",
   "3. **Use API Reference** for endpoint documentation",
   "4. **Check specific sections** for detailed implementation guides",
   "",
   "## Preservation Methods",
   "",
   "This documentation can be preserved using multiple methods:",
   "",
   "- **Git Repository**: Add to your project's git repository",
   "- **Export Archive**: Use the export scripts to create downloadable backups",
   "- **Cloud Storage**: Upload to Google Drive, Dropbox, or similar",
   "- **Documentation Site**: Convert to a website using GitHub Pages or similar",
   "",
   "## Export Instructions",
   "",
   "To create downloadable archives of this documentation:",
   "",
   "```bash",
   "# Windows",
   "scripts\\export-docs.bat",
   "",
   "# Linux/Mac",
   "./scripts/export-docs.sh",
   "```",
   "",
   "---",
   "",
   "*This documentation was generated from Qoder IDE's Wiki Catalog feature and preserved for permanent access.*"]

/-- The `readme_content` string of `create_main_readme` (the f-string ends
with a newline before the closing quotes). -/
def create_main_readme_content (now : String) : String :=
  String.intercalate "\n" (create_main_readme_lines now) ++ "\n"

/-- `create_main_readme(docs_dir)`: unconditionally write `docs/README.md`. -/
def create_main_readme (now : String) (fs : FS) : FS × List Effect :=
  (writeFile fs "docs/README.md" (create_main_readme_content now),
   [.writeEff "docs/README.md" (create_main_readme_content now)])

/-- The `for section_name, filename in wiki_sections.items()` loop of
`create_wiki_structure`: for each entry, write the template only when
`file_path.exists()` is false (and then print a notice).  Python's
`Path.exists()` is true for a file or a directory, hence `pathExists`. -/
def writeTemplateLoop (now : String) : List (String × String) → FS → FS × List Effect
  | [], fs => (fs, [])
  | e :: rest, fs =>
    let file_path := "docs/" ++ e.2
    if pathExists fs file_path then
      writeTemplateLoop now rest fs
    else
      let r1 := create_section_template now file_path e.1 fs
      let r2 := writeTemplateLoop now rest r1.1
      (r2.1, r1.2 ++ Effect.printEff ("✅ Created template: " ++ e.2) :: r2.2)

/-- `create_wiki_structure()`: make `docs/`, create the missing templates in
catalog order, then write the README index; print a completion summary.
(The absolute-path detail of the summary print is abstracted to `docs`.) -/
def create_wiki_structure (now : String) (fs : FS) : FS × List Effect :=
  let fs1 := mkdirExistOk fs "docs"
  let r := writeTemplateLoop now wiki_sections fs1
  let r2 := create_main_readme now r.1
  (r2.1,
   Effect.mkdirEff "docs" :: r.2 ++ r2.2 ++
     [.printEff "\n🎉 Wiki structure created in: docs",
      .printEff "\nNext steps:",
      .printEff "1. Copy content from Qoder wiki to corresponding markdown files",
      .printEff "2. Run the export script to create downloadable archives",
      .printEff "3. Add to git repository for version control"])

namespace Script

/-- `main()`: print the banner, check the `package.json` precondition marker,
and either stop with a guidance message or run `create_wiki_structure`. -/
def main (now : String) (fs : FS) : FS × List Effect :=
  let banner : List Effect :=
    [.printEff "🚀 Qoder Wiki Extraction Tool",
     .printEff (String.mk (List.replicate 40 '='))]
  if pathExists fs "package.json" then
    let r := create_wiki_structure now fs
    (r.1, banner ++ r.2)
  else
    (fs, banner ++
      [.printEff "❌ Please run this script from your FriendFinder project root directory"])

end Script

/-! Measurement functions on markdown content, used to state properties of the
generated files.  They work on `String.data` character lists by structural
recursion, so that they evaluate even when the timestamp inside a line is a
variable. -/

/-- Whether a character list starts like a markdown bullet link `- [`. -/
def linkHeadCh : List Char → Bool
  | '-' :: ' ' :: '[' :: _ => true
  | _ => false

/-- Characters up to (excluding) the first closing parenthesis. -/
def linkTargetCh : List Char → List Char
  | [] => []
  | ')' :: _ => []
  | c :: rest => c :: linkTargetCh rest

/-- The first `](./target)` occurrence, returning `target`. -/
def findTargetCh : List Char → Option (List Char)
  | ']' :: '(' :: '.' :: '/' :: rest => some (linkTargetCh rest)
  | _ :: rest => findTargetCh rest
  | [] => none

/-- The relative filename linked by a markdown bullet-link line
`- [Title](./file) - description`, when the line is such a link. -/
def extractLink (line : String) : Option String :=
  if linkHeadCh line.data then (findTargetCh line.data).map fun cs => ⟨cs⟩
  else none

/-- Whether a line is a level-3 markdown heading `### ...` (the README's
category-group headings). -/
def isGroupHeading (line : String) : Bool :=
  match line.data with
  | '#' :: '#' :: '#' :: ' ' :: _ => true
  | _ => false

/-- The relative filenames linked from the README lines, in order. -/
def readmeLinks (now : String) : List String :=
  (create_main_readme_lines now).filterMap extractLink

/-- The category-group headings of the README lines, in order. -/
def readmeGroupHeadings (now : String) : List String :=
  (create_main_readme_lines now).filter isGroupHeading

/-- Split a character list into lines at newline characters
(`acc` is the reversed current line). -/
def splitLinesCh : List Char → List Char → List String
  | [], acc => [⟨acc.reverse⟩]
  | '\n' :: rest, acc => (⟨acc.reverse⟩ : String) :: splitLinesCh rest []
  | c :: rest, acc => splitLinesCh rest (c :: acc)

/-- The lines of a string. -/
def linesOf (s : String) : List String := splitLinesCh s.data []

/-! Concrete filesystem fixtures used to instantiate the theorems. -/

/-- A sample timestamp string, as produced by
`datetime.now().strftime('%Y-%m-%d %H:%M:%S')`. -/
def ts0 : String := "2026-01-01 12:00:00"

/-- Fixture: a project root containing only the manifest. -/
def fsFresh : FS := ⟨[], [("package.json", "")]⟩

/-- Fixture: a directory lacking the manifest. -/
def fsNoManifest : FS := ⟨[], [("README.md", "top level readme")]⟩

/-- Fixture: manifest plus all thirteen template files already on disk, the
first one manually edited by a user between runs. -/
def fsAllTemplates : FS :=
  ⟨["docs"],
   [("package.json", ""),
    ("docs/01-getting-started.md", "EDITED BY USER"),
    ("docs/02-technology-stack.md", "t2"),
    ("docs/03-project-structure.md", "t3"),
    ("docs/04-frontend-architecture.md", "t4"),
    ("docs/05-backend-architecture.md", "t5"),
    ("docs/06-api-reference.md", "t6"),
    ("docs/07-realtime-communication.md", "t7"),
    ("docs/08-component-architecture.md", "t8"),
    ("docs/09-state-management.md", "t9"),
    ("docs/10-authentication-flow.md", "t10"),
    ("docs/11-data-models.md", "t11"),
    ("docs/12-middleware.md", "t12"),
    ("docs/13-routing-navigation.md", "t13")]⟩

/-- Fixture: manifest plus a stale README from a previous run. -/
def fsStaleReadme : FS :=
  ⟨["docs"], [("package.json", ""), ("docs/README.md", "stale index")]⟩

/-- Fixture: manifest plus one already-present template file. -/
def fsOneTemplate : FS :=
  ⟨[], [("package.json", ""), ("docs/07-realtime-communication.md", "already present")]⟩

/-- Fixture: manifest plus a directory occupying a catalog template path. -/
def fsDirCollision : FS :=
  ⟨["docs/06-api-reference.md"], [("package.json", "")]⟩

/-! Basic lemmas about the filesystem model. -/

theorem lookupFile_write_self (l : List (String × String)) (p c : String) :
    lookupFile (writeFilePairs l p c) p = some c := by
  induction l with
  | nil => simp [writeFilePairs, lookupFile]
  | cons kv rest ih =>
    by_cases h : p = kv.1 <;> simp [writeFilePairs, lookupFile, h, ih]

theorem lookupFile_write_other (l : List (String × String)) (p c q : String)
    (h : q ≠ p) : lookupFile (writeFilePairs l p c) q = lookupFile l q := by
  induction l with
  | nil => simp [writeFilePairs, lookupFile, h]
  | cons kv rest ih =>
    by_cases hk : p = kv.1
    · subst hk; simp [writeFilePairs, lookupFile, h]
    · simp [writeFilePairs, lookupFile, hk, ih]

theorem readFile_writeFile_self (fs : FS) (p c : String) :
    readFile (writeFile fs p c) p = some c :=
  lookupFile_write_self fs.files p c

theorem readFile_writeFile_other (fs : FS) (p c q : String) (h : q ≠ p) :
    readFile (writeFile fs p c) q = readFile fs q :=
  lookupFile_write_other fs.files p c q h

theorem fileExists_writeFile_other (fs : FS) (p c q : String) (h : q ≠ p) :
    fileExists (writeFile fs p c) q = fileExists fs q := by
  simp [fileExists, writeFile, lookupFile_write_other fs.files p c q h]

theorem fileExists_writeFile_mono (fs : FS) (p c q : String)
    (h : fileExists fs q = true) : fileExists (writeFile fs p c) q = true := by
  by_cases hq : q = p
  · subst hq
    simp [fileExists, writeFile, lookupFile_write_self]
  · rw [fileExists_writeFile_other fs p c q hq]; exact h

theorem readFile_mkdirExistOk (fs : FS) (d q : String) :
    readFile (mkdirExistOk fs d) q = readFile fs q := by
  unfold mkdirExistOk
  split <;> rfl

theorem fileExists_mkdirExistOk (fs : FS) (d q : String) :
    fileExists (mkdirExistOk fs d) q = fileExists fs q := by
  unfold mkdirExistOk
  split <;> rfl

theorem dirExists_writeFile (fs : FS) (p c q : String) :
    dirExists (writeFile fs p c) q = dirExists fs q := rfl

theorem pathExists_writeFile_other (fs : FS) (p c q : String) (h : q ≠ p) :
    pathExists (writeFile fs p c) q = pathExists fs q := by
  simp [pathExists, fileExists_writeFile_other fs p c q h, dirExists_writeFile]

theorem dirExists_mkdirExistOk_ne (fs : FS) (d q : String) (h : q ≠ d) :
    dirExists (mkdirExistOk fs d) q = dirExists fs q := by
  unfold mkdirExistOk
  split
  · rfl
  · simp [dirExists, List.contains_cons, h]

theorem pathExists_mkdirExistOk_ne (fs : FS) (d q : String) (h : q ≠ d) :
    pathExists (mkdirExistOk fs d) q = pathExists fs q := by
  simp [pathExists, fileExists_mkdirExistOk, dirExists_mkdirExistOk_ne fs d q h]

/-! Lemmas about the template-creating loop of `create_wiki_structure`. -/

theorem writeTemplateLoop_cons_skip (now : String) (a : String × String)
    (rest : List (String × String)) (fs : FS)
    (h : pathExists fs ("docs/" ++ a.2) = true) :
    writeTemplateLoop now (a :: rest) fs = writeTemplateLoop now rest fs := by
  simp [writeTemplateLoop, h]

theorem writeTemplateLoop_cons_write (now : String) (a : String × String)
    (rest : List (String × String)) (fs : FS)
    (h : pathExists fs ("docs/" ++ a.2) = false) :
    writeTemplateLoop now (a :: rest) fs =
      ((writeTemplateLoop now rest (writeFile fs ("docs/" ++ a.2)
          (create_section_template_content a.1 now))).1,
        Effect.writeEff ("docs/" ++ a.2) (create_section_template_content a.1 now) ::
        Effect.printEff ("✅ Created template: " ++ a.2) ::
        (writeTemplateLoop now rest (writeFile fs ("docs/" ++ a.2)
          (create_section_template_content a.1 now))).2) := by
  simp [writeTemplateLoop, h, create_section_template]

theorem writeTemplateLoop_skip_all (now : String) (l : List (String × String))
    (fs : FS) (h : ∀ e ∈ l, pathExists fs ("docs/" ++ e.2) = true) :
    writeTemplateLoop now l fs = (fs, []) := by
  induction l with
  | nil => rfl
  | cons a rest ih =>
    rw [writeTemplateLoop_cons_skip now a rest fs (h a (by simp))]
    exact ih fun e he => h e (by simp [he])

theorem writeTemplateLoop_readFile_untouched (now : String)
    (l : List (String × String)) (fs : FS) (q : String)
    (h : ∀ e ∈ l, q ≠ "docs/" ++ e.2) :
    readFile (writeTemplateLoop now l fs).1 q = readFile fs q := by
  induction l generalizing fs with
  | nil => rfl
  | cons a rest ih =>
    cases ha : pathExists fs ("docs/" ++ a.2) with
    | true =>
      rw [writeTemplateLoop_cons_skip now a rest fs ha]
      exact ih fs fun e he => h e (by simp [he])
    | false =>
      rw [writeTemplateLoop_cons_write now a rest fs ha]
      rw [ih _ fun e he => h e (by simp [he])]
      exact readFile_writeFile_other fs _ _ q (h a (by simp))

theorem writeTemplateLoop_exists_mono (now : String) (l : List (String × String))
    (fs : FS) (q : String) (h : fileExists fs q = true) :
    fileExists (writeTemplateLoop now l fs).1 q = true := by
  induction l generalizing fs with
  | nil => exact h
  | cons a rest ih =>
    cases ha : pathExists fs ("docs/" ++ a.2) with
    | true =>
      rw [writeTemplateLoop_cons_skip now a rest fs ha]
      exact ih fs h
    | false =>
      rw [writeTemplateLoop_cons_write now a rest fs ha]
      exact ih _ (fileExists_writeFile_mono fs _ _ q h)

theorem writeTemplateLoop_exists_after (now : String) (l : List (String × String))
    (fs : FS) (e : String × String) (he : e ∈ l)
    (hd : dirExists fs ("docs/" ++ e.2) = false) :
    fileExists (writeTemplateLoop now l fs).1 ("docs/" ++ e.2) = true := by
  induction l generalizing fs with
  | nil => cases he
  | cons a rest ih =>
    cases ha : pathExists fs ("docs/" ++ a.2) with
    | true =>
      rw [writeTemplateLoop_cons_skip now a rest fs ha]
      rcases List.mem_cons.mp he with rfl | hrest
      · have hf : fileExists fs ("docs/" ++ e.2) = true := by
          simpa [pathExists, hd] using ha
        exact writeTemplateLoop_exists_mono now rest fs _ hf
      · exact ih fs hrest hd
    | false =>
      rw [writeTemplateLoop_cons_write now a rest fs ha]
      rcases List.mem_cons.mp he with rfl | hrest
      · exact writeTemplateLoop_exists_mono now rest _ _
          (by simp [fileExists, writeFile, lookupFile_write_self])
      · exact ih _ hrest ((dirExists_writeFile fs _ _ _).trans hd)

theorem writeTemplateLoop_created_content (now : String)
    (l : List (String × String)) (fs : FS) (e : String × String)
    (hnd : (l.map fun x => "docs/" ++ x.2).Nodup) (he : e ∈ l)
    (habs : pathExists fs ("docs/" ++ e.2) = false) :
    readFile (writeTemplateLoop now l fs).1 ("docs/" ++ e.2) =
      some (create_section_template_content e.1 now) := by
  induction l generalizing fs with
  | nil => cases he
  | cons a rest ih =>
    rw [List.map_cons, List.nodup_cons] at hnd
    rcases List.mem_cons.mp he with rfl | hrest
    · rw [writeTemplateLoop_cons_write now e rest fs habs]
      rw [writeTemplateLoop_readFile_untouched now rest _ _
        (fun x hx hcontra =>
          hnd.1 (by rw [hcontra]; exact List.mem_map_of_mem _ hx))]
      exact readFile_writeFile_self fs _ _
    · have hne : ("docs/" ++ e.2) ≠ ("docs/" ++ a.2) := by
        intro hcontra
        exact hnd.1 (by rw [← hcontra]; exact List.mem_map_of_mem _ hrest)
      cases ha : pathExists fs ("docs/" ++ a.2) with
      | true =>
        rw [writeTemplateLoop_cons_skip now a rest fs ha]
        exact ih fs hnd.2 hrest habs
      | false =>
        rw [writeTemplateLoop_cons_write now a rest fs ha]
        refine ih _ hnd.2 hrest ?_
        rw [pathExists_writeFile_other fs _ _ _ hne]
        exact habs

theorem writeTemplateLoop_trace (now : String) (l : List (String × String))
    (fs : FS) (hnd : (l.map fun x => "docs/" ++ x.2).Nodup) :
    (writeTemplateLoop now l fs).2.filter isFsEffect =
      (l.filter fun e => !pathExists fs ("docs/" ++ e.2)).map
        fun e => Effect.writeEff ("docs/" ++ e.2)
          (create_section_template_content e.1 now) := by
  induction l generalizing fs with
  | nil => rfl
  | cons a rest ih =>
    rw [List.map_cons, List.nodup_cons] at hnd
    cases ha : pathExists fs ("docs/" ++ a.2) with
    | true =>
      rw [writeTemplateLoop_cons_skip now a rest fs ha,
        List.filter_cons_of_neg (by simp [ha])]
      exact ih fs hnd.2
    | false =>
      rw [writeTemplateLoop_cons_write now a rest fs ha]
      have hfs1 : ∀ e ∈ rest,
          (!pathExists (writeFile fs ("docs/" ++ a.2)
            (create_section_template_content a.1 now)) ("docs/" ++ e.2)) =
          (!pathExists fs ("docs/" ++ e.2)) := by
        intro e he
        have hne : ("docs/" ++ e.2) ≠ ("docs/" ++ a.2) := by
          intro hcontra
          exact hnd.1 (by rw [← hcontra]; exact List.mem_map_of_mem _ he)
        rw [pathExists_writeFile_other fs _ _ _ hne]
      rw [List.filter_cons_of_pos (by rfl), List.filter_cons_of_neg (by simp [isFsEffect]),
        List.filter_cons_of_pos (by simp [ha]), List.map_cons]
      exact congrArg _ ((ih _ hnd.2).trans (congrArg _ (List.filter_congr hfs1)))


/-! Helper facts about the catalog and about a full run. -/

theorem catalog_paths_nodup : (wiki_sections.map fun e => "docs/" ++ e.2).Nodup := by
  decide

theorem catalog_no_readme_clash :
    ∀ e ∈ wiki_sections, "docs/" ++ e.2 ≠ "docs/README.md" := by
  decide

theorem catalog_no_docs_clash :
    ∀ e ∈ wiki_sections, "docs/" ++ e.2 ≠ "docs" := by
  decide

theorem main_fs_pos (now : String) (fs : FS)
    (h : pathExists fs "package.json" = true) :
    (Script.main now fs).1 =
      writeFile (writeTemplateLoop now wiki_sections (mkdirExistOk fs "docs")).1
        "docs/README.md" (create_main_readme_content now) := by
  simp [Script.main, h, create_wiki_structure, create_main_readme]

theorem main_trace_pos (now : String) (fs : FS)
    (h : pathExists fs "package.json" = true) :
    (Script.main now fs).2.filter isFsEffect =
      Effect.mkdirEff "docs" ::
      ((writeTemplateLoop now wiki_sections (mkdirExistOk fs "docs")).2.filter
        isFsEffect ++
      [Effect.writeEff "docs/README.md" (create_main_readme_content now)]) := by
  simp [Script.main, h, create_wiki_structure, create_main_readme, isFsEffect,
    List.filter_append, List.filter_cons]

theorem readmeLinks_eq (now : String) :
    readmeLinks now =
      ["01-getting-started.md", "02-technology-stack.md", "03-project-structure.md",
       "04-frontend-architecture.md", "05-backend-architecture.md",
       "08-component-architecture.md", "06-api-reference.md",
       "07-realtime-communication.md", "09-state-management.md",
       "10-authentication-flow.md", "11-data-models.md", "12-middleware.md",
       "13-routing-navigation.md"] := rfl

/-! Claim theorems. -/

/-- C9: in the catalog `wiki_sections` (the fixed ordered mapping from section
title to filename), all thirteen filenames are pairwise distinct; the catalog
is a fixed definition, never mutated by any operation, so the uniqueness is
preserved across every operation. -/
theorem wiki_sections_filenames_nodup : (wiki_sections.map Prod.snd).Nodup := by
  decide

/-- C2: when the precondition marker `package.json` is absent, the run mutates
no filesystem state (the final state equals the initial one and the trace has
no directory creation or file write), prints the guidance message, and
terminates early. -/
theorem main_without_manifest_no_mutation (now : String) (fs : FS)
    (h : pathExists fs "package.json" = false) :
    (Script.main now fs).1 = fs ∧
    (Script.main now fs).2.filter isFsEffect = [] ∧
    Effect.printEff "❌ Please run this script from your FriendFinder project root directory"
      ∈ (Script.main now fs).2 := by
  refine ⟨?_, ?_, ?_⟩ <;> simp [Script.main, h, isFsEffect]

/-- Witness for C2: a run in a directory lacking the manifest. -/
theorem main_without_manifest_no_mutation_witness :
    (Script.main ts0 fsNoManifest).1 = fsNoManifest ∧
    (Script.main ts0 fsNoManifest).2.filter isFsEffect = [] ∧
    Effect.printEff "❌ Please run this script from your FriendFinder project root directory"
      ∈ (Script.main ts0 fsNoManifest).2 :=
  main_without_manifest_no_mutation ts0 fsNoManifest (by decide)

set_option maxRecDepth 4000 in
/-- C3 counterexample: with a directory sitting at `docs/06-api-reference.md`
(reachable by a prior `mkdir`), the precondition is satisfied, yet the run
completes with no file at that catalog path: Python's `file_path.exists()` is
true for the directory, so the template write is silently skipped.  This
refutes the claim that after every precondition-satisfying run each designated
filename exists as a file under `docs/`. -/
theorem run_misses_file_on_dir_collision :
    pathExists fsDirCollision "package.json" = true ∧
    fileExists (Script.main ts0 fsDirCollision).1 "docs/06-api-reference.md" = false := by
  decide

/-- C3 (amended): after a run with the precondition satisfied, for each of the
thirteen catalog entries a file with exactly the designated filename exists
under `docs/`, provided no directory occupies a catalog path (a directory at a
template path makes `Path.exists()` true and the entry is silently skipped). -/
theorem run_creates_every_catalog_file (now : String) (fs : FS)
    (h : pathExists fs "package.json" = true)
    (hnd : ∀ e ∈ wiki_sections, dirExists fs ("docs/" ++ e.2) = false) :
    ∀ e ∈ wiki_sections, fileExists (Script.main now fs).1 ("docs/" ++ e.2) = true := by
  intro e he
  rw [main_fs_pos now fs h]
  refine fileExists_writeFile_mono _ _ _ _ ?_
  refine writeTemplateLoop_exists_after now wiki_sections _ e he ?_
  rw [dirExists_mkdirExistOk_ne fs "docs" _ (catalog_no_docs_clash e he)]
  exact hnd e he

/-- Witness for C3 (amended): a fresh run creates
`docs/05-backend-architecture.md`. -/
theorem run_creates_every_catalog_file_witness :
    fileExists (Script.main ts0 fsFresh).1 "docs/05-backend-architecture.md" = true :=
  run_creates_every_catalog_file ts0 fsFresh (by decide) (by decide)
    ("Backend Architecture", "05-backend-architecture.md") (by decide)

/-- C1: when the precondition is satisfied and every template file
`docs/<filename>` already exists, a run leaves each of the thirteen template
files byte-identical (the conditional write fires only for absent files).
Since a first run creates all thirteen files, this covers running twice in
succession, and it holds for arbitrary on-disk contents, hence also for a
template file manually edited by a user between runs. -/
theorem templates_never_overwritten (now : String) (fs : FS)
    (h : pathExists fs "package.json" = true)
    (hall : ∀ e ∈ wiki_sections, fileExists fs ("docs/" ++ e.2) = true) :
    ∀ e ∈ wiki_sections,
      readFile (Script.main now fs).1 ("docs/" ++ e.2) = readFile fs ("docs/" ++ e.2) := by
  intro e he
  have hall' : ∀ x ∈ wiki_sections,
      pathExists (mkdirExistOk fs "docs") ("docs/" ++ x.2) = true := by
    intro x hx
    simp [pathExists, fileExists_mkdirExistOk, hall x hx]
  rw [main_fs_pos now fs h,
    writeTemplateLoop_skip_all now wiki_sections _ hall']
  refine (readFile_writeFile_other _ _ _ _ (catalog_no_readme_clash e he)).trans ?_
  exact readFile_mkdirExistOk fs "docs" _

/-- Witness for C1: with all thirteen templates present and the first one
manually edited, a run preserves the edited file byte-identically. -/
theorem templates_never_overwritten_witness :
    readFile (Script.main ts0 fsAllTemplates).1 "docs/01-getting-started.md" =
      readFile fsAllTemplates "docs/01-getting-started.md" :=
  templates_never_overwritten ts0 fsAllTemplates (by decide) (by decide)
    ("Getting Started", "01-getting-started.md") (by decide)

/-- C4: on every run with the precondition satisfied, `docs/README.md` ends up
with exactly the freshly generated index content (so any pre-existing README
is unconditionally overwritten), and that content's timestamp line embeds the
current run's timestamp. -/
theorem readme_regenerated_each_run (now : String) (fs : FS)
    (h : pathExists fs "package.json" = true) :
    readFile (Script.main now fs).1 "docs/README.md" =
      some (create_main_readme_content now) ∧
    ("*Extracted from Qoder Wiki Catalog on " ++ now ++ "*")
      ∈ create_main_readme_lines now := by
  constructor
  · rw [main_fs_pos now fs h]
    exact readFile_writeFile_self _ _ _
  · simp [create_main_readme_lines]

/-- Witness for C4: a run over a stale README overwrites it with the current
run's index. -/
theorem readme_regenerated_each_run_witness :
    readFile (Script.main ts0 fsStaleReadme).1 "docs/README.md" =
      some (create_main_readme_content ts0) ∧
    ("*Extracted from Qoder Wiki Catalog on " ++ ts0 ++ "*")
      ∈ create_main_readme_lines ts0 :=
  readme_regenerated_each_run ts0 fsStaleReadme (by decide)

/-- C6: for every catalog entry whose template file is created by the run —
that is, nothing exists at its path beforehand, as neither a file nor a
directory, so `Path.exists()` is false and the write fires — the created file
holds exactly the generated template, whose lines contain a title heading with
the section's title, an "Overview" section, a "Table of Contents" section, a
"Detailed Documentation" placeholder section, and a generation timestamp
footer. -/
theorem created_template_contains_sections (now : String) (fs : FS)
    (h : pathExists fs "package.json" = true) :
    ∀ e ∈ wiki_sections, pathExists fs ("docs/" ++ e.2) = false →
      readFile (Script.main now fs).1 ("docs/" ++ e.2) =
        some (create_section_template_content e.1 now) ∧
      ("# " ++ e.1) ∈ create_section_template_lines e.1 now ∧
      "## Overview" ∈ create_section_template_lines e.1 now ∧
      "## Table of Contents" ∈ create_section_template_lines e.1 now ∧
      "## Detailed Documentation" ∈ create_section_template_lines e.1 now ∧
      ("*This documentation was extracted from Qoder Wiki Catalog on " ++ now ++ "*")
        ∈ create_section_template_lines e.1 now := by
  intro e he habs
  refine ⟨?_, by simp [create_section_template_lines],
    by simp [create_section_template_lines], by simp [create_section_template_lines],
    by simp [create_section_template_lines], by simp [create_section_template_lines]⟩
  rw [main_fs_pos now fs h]
  refine (readFile_writeFile_other _ _ _ _ (catalog_no_readme_clash e he)).trans ?_
  refine writeTemplateLoop_created_content now wiki_sections _ e
    catalog_paths_nodup he ?_
  rw [pathExists_mkdirExistOk_ne fs "docs" _ (catalog_no_docs_clash e he)]
  exact habs

/-- Witness for C6: on a fresh run, `docs/01-getting-started.md` is created
with the full template for the "Getting Started" section. -/
theorem created_template_contains_sections_witness :
    readFile (Script.main ts0 fsFresh).1 "docs/01-getting-started.md" =
      some (create_section_template_content "Getting Started" ts0) ∧
    ("# " ++ "Getting Started") ∈ create_section_template_lines "Getting Started" ts0 ∧
    "## Overview" ∈ create_section_template_lines "Getting Started" ts0 ∧
    "## Table of Contents" ∈ create_section_template_lines "Getting Started" ts0 ∧
    "## Detailed Documentation" ∈ create_section_template_lines "Getting Started" ts0 ∧
    ("*This documentation was extracted from Qoder Wiki Catalog on " ++ ts0 ++ "*")
      ∈ create_section_template_lines "Getting Started" ts0 :=
  created_template_contains_sections ts0 fsFresh (by decide)
    ("Getting Started", "01-getting-started.md") (by decide) (by decide)

/-- C8: with the precondition satisfied, the filesystem effects of a run are
exactly, in order: the `docs/` directory creation, then one conditional
template write per catalog entry in catalog order (a write exactly for the
entries at whose path nothing exists, `Path.exists()` being false), then the
README index write — and nothing else. -/
theorem run_effect_sequence (now : String) (fs : FS)
    (h : pathExists fs "package.json" = true) :
    (Script.main now fs).2.filter isFsEffect =
      Effect.mkdirEff "docs" ::
      (((wiki_sections.filter fun e => !pathExists fs ("docs/" ++ e.2)).map
        fun e => Effect.writeEff ("docs/" ++ e.2)
          (create_section_template_content e.1 now)) ++
      [Effect.writeEff "docs/README.md" (create_main_readme_content now)]) := by
  rw [main_trace_pos now fs h,
    writeTemplateLoop_trace now wiki_sections _ catalog_paths_nodup]
  have hmk : ∀ e ∈ wiki_sections,
      (!pathExists (mkdirExistOk fs "docs") ("docs/" ++ e.2)) =
      (!pathExists fs ("docs/" ++ e.2)) := by
    intro e he
    rw [pathExists_mkdirExistOk_ne fs "docs" _ (catalog_no_docs_clash e he)]
  rw [List.filter_congr hmk]

/-- Witness for C8: a run over a state where exactly one template pre-exists
performs the directory creation, then the twelve missing template writes in
catalog order, then the README write. -/
theorem run_effect_sequence_witness :
    (Script.main ts0 fsOneTemplate).2.filter isFsEffect =
      Effect.mkdirEff "docs" ::
      (((wiki_sections.filter fun e => !pathExists fsOneTemplate ("docs/" ++ e.2)).map
        fun e => Effect.writeEff ("docs/" ++ e.2)
          (create_section_template_content e.1 ts0)) ++
      [Effect.writeEff "docs/README.md" (create_main_readme_content ts0)]) :=
  run_effect_sequence ts0 fsOneTemplate (by decide)

set_option maxRecDepth 80000 in
/-- C5 counterexample: on a concrete fresh run, the list of filenames linked
from the generated `docs/README.md`, read back from the final filesystem and
split into lines, is not the catalog-ordered list of filenames (the
hand-curated grouping places `08-component-architecture.md` before
`06-api-reference.md`), refuting the claim that the links appear in the order
given by the catalog. -/
theorem readme_links_not_in_catalog_order :
    ((readFile (Script.main ts0 fsFresh).1 "docs/README.md").map
      fun c => (linesOf c).filterMap extractLink) ≠
    some (wiki_sections.map Prod.snd) := by
  decide

/-- C5 (amended): the README grouping is hand-curated independently of the
catalog: the links appear in the fixed order 01, 02, 03, 04, 05, 08, 06, 07,
09, 10, 11, 12, 13 — a permutation of the catalog's filenames, not the
catalog's own order. -/
theorem readme_links_hand_curated_order (now : String) :
    readmeLinks now =
      ["01-getting-started.md", "02-technology-stack.md", "03-project-structure.md",
       "04-frontend-architecture.md", "05-backend-architecture.md",
       "08-component-architecture.md", "06-api-reference.md",
       "07-realtime-communication.md", "09-state-management.md",
       "10-authentication-flow.md", "11-data-models.md", "12-middleware.md",
       "13-routing-navigation.md"] ∧
    (readmeLinks now).Perm (wiki_sections.map Prod.snd) ∧
    readmeLinks now ≠ wiki_sections.map Prod.snd := by
  refine ⟨rfl, ?_, ?_⟩ <;> rw [readmeLinks_eq] <;> decide

/-- C7: the generated README consists of exactly the four category groupings
"Getting Started", "Architecture", "Development" and "Data & Infrastructure",
together linking exactly the thirteen catalog section files, plus a title, a
timestamp line, usage instructions, and an export-instructions section
referencing `scripts/export-docs.bat` and `scripts/export-docs.sh`. -/
theorem readme_index_structure (now : String) :
    readmeGroupHeadings now =
      ["### Getting Started", "### Architecture", "### Development",
       "### Data & Infrastructure"] ∧
    (readmeLinks now).Perm (wiki_sections.map Prod.snd) ∧
    (create_main_readme_lines now).head? = some "# FriendFinder Documentation" ∧
    ("*Extracted from Qoder Wiki Catalog on " ++ now ++ "*")
      ∈ create_main_readme_lines now ∧
    "## How to Use This Documentation" ∈ create_main_readme_lines now ∧
    "## Export Instructions" ∈ create_main_readme_lines now ∧
    "scripts\\export-docs.bat" ∈ create_main_readme_lines now ∧
    "./scripts/export-docs.sh" ∈ create_main_readme_lines now := by
  refine ⟨rfl, ?_, rfl, ?_, ?_, ?_, ?_, ?_⟩
  · rw [readmeLinks_eq]
    decide
  all_goals simp [create_main_readme_lines]

/-- C10: although `create_main_readme` hard-codes the index content without
reading the catalog, the relative filenames linked from the generated README
are exactly the thirteen catalog filenames, each linked exactly once. -/
theorem readme_links_exactly_catalog_filenames (now : String) :
    (readmeLinks now).Perm (wiki_sections.map Prod.snd) ∧
    ∀ e ∈ wiki_sections, (readmeLinks now).count e.2 = 1 := by
  rw [readmeLinks_eq]
  exact ⟨by decide, by decide⟩
